import Mathlib

/-!
Shallow embedding of the core pipeline of the book-verification project:
the catalog client (`lib/read365.ts`), the resolver client (`lib/aladin.ts`),
the result cache (`lib/cache.ts`) and the verification engine
(the `/api/verify` route: `POST` and `processVerification`).

External I/O (HTTP fetches) is modelled by explicit oracle functions passed
as parameters; JavaScript string truthiness (`null`/`''` are falsy) is
modelled by `truthyS` on `Option String`.
-/

namespace BookProject

/-- JS truthiness of a `string | null` value: `null` and `""` are falsy. -/
def truthyS : Option String → Bool
  | none => false
  | some s => s ≠ ""

/-- `s.replace(/\s/g, '')` : drop every whitespace character. -/
def stripWs (s : String) : String :=
  String.mk (s.data.filter (fun c => !c.isWhitespace))

/-- `s.toLowerCase()`, character-wise. -/
def lowerStr (s : String) : String :=
  String.mk (s.data.map Char.toLower)

/-- Executable test that `needle` occurs as a contiguous sublist of `hay`. -/
def listIsInfix (needle : List Char) : List Char → Bool
  | [] => needle.isEmpty
  | c :: rest => needle.isPrefixOf (c :: rest) || listIsInfix needle rest

/-- `hay.includes(needle)` : substring test on the underlying character lists. -/
def strIncludes (hay needle : String) : Bool :=
  listIsInfix needle.data hay.data

/-! ## Cache keys (`lib/cache.ts`) -/

/-- `normalizeKey` from `lib/cache.ts`: `text.toLowerCase().replace(/\s/g, '')`. -/
def normalizeKey (text : String) : String :=
  stripWs (lowerStr text)

/-- `makeISBNKey` from `lib/cache.ts`. -/
def makeISBNKey (title author : String) : String :=
  normalizeKey title ++ "|" ++ normalizeKey author

/-- `makeSearchKey` from `lib/cache.ts`. -/
def makeSearchKey (school isbn : String) : String :=
  normalizeKey school ++ "|" ++ isbn

/-! ## Catalog client (`lib/read365.ts`) -/

/-- A book entry of a Read365 search response (all fields optional in the source). -/
structure Read365Book where
  title : Option String := none
  author : Option String := none
  schoolName : Option String := none
  provName : Option String := none
  isbn : Option String := none
  deriving Repr, DecidableEq

/-- `REGION_CODE_MAP` from `lib/read365.ts`, as an association list. -/
def REGION_CODE_MAP : List (String × String) :=
  [("서울", "B10"), ("서울특별시", "B10"),
   ("부산", "C10"), ("부산광역시", "C10"),
   ("대구", "D10"), ("대구광역시", "D10"),
   ("인천", "E10"), ("인천광역시", "E10"),
   ("광주", "F10"), ("광주광역시", "F10"),
   ("대전", "G10"), ("대전광역시", "G10"),
   ("울산", "H10"), ("울산광역시", "H10"),
   ("세종", "I10"), ("세종특별자치시", "I10"),
   ("경기", "J10"), ("경기도", "J10"),
   ("강원", "K10"), ("강원도", "K10"),
   ("충북", "M10"), ("충청북도", "M10"),
   ("충남", "N10"), ("충청남도", "N10"),
   ("전북", "P10"), ("전라북도", "P10"),
   ("전남", "Q10"), ("전라남도", "Q10"),
   ("경북", "R10"), ("경상북도", "R10"),
   ("경남", "S10"), ("경상남도", "S10"),
   ("제주", "T10"), ("제주특별자치도", "T10")]

/-- `MAJOR_REGION_CODES` from `lib/read365.ts` (fixed canonical partition order). -/
def MAJOR_REGION_CODES : List String :=
  ["B10", "C10", "D10", "E10", "F10", "G10", "H10", "I10",
   "J10", "K10", "M10", "N10", "P10", "Q10", "R10", "S10", "T10"]

/-- `getProvCode` from `lib/read365.ts`: `REGION_CODE_MAP[regionName] || null`. -/
def getProvCode (regionName : String) : Option String :=
  List.lookup regionName REGION_CODE_MAP

/-- One page of a Read365 search response, as parsed by `searchISBN`. -/
structure PageResult where
  totalCount : Nat
  totalPages : Nat
  books : List Read365Book
  deriving Repr, DecidableEq

/--
The paging loop of `searchISBNAllPages` from `lib/read365.ts`, instrumented
with the list of requested page numbers.  `fetch p` is the (already parsed)
response of `searchISBN(isbn, provCode, p, 100)`.  The source loop is
`while (true)`, which diverges if the service keeps reporting ever-larger
`totalPages`; `fuel` bounds the number of iterations and the `Bool`
component records whether the loop exited by itself (`true`) rather than by
running out of fuel.
-/
def searchAllPagesGo (fetch : Nat → PageResult) :
    Nat → Nat → List Nat × List Read365Book × Bool
  | 0, _ => ([], [], false)
  | fuel + 1, page =>
    let result := fetch page
    if result.books = [] then
      ([page], [], true)
    else if result.totalPages ≤ page then
      ([page], result.books, true)
    else
      let rest := searchAllPagesGo fetch fuel (page + 1)
      (page :: rest.1, result.books ++ rest.2.1, rest.2.2)

/-- `searchISBNAllPages` from `lib/read365.ts`: start at page 1. -/
def searchISBNAllPages (fetch : Nat → PageResult) (fuel : Nat) :
    List Nat × List Read365Book × Bool :=
  searchAllPagesGo fetch fuel 1

/--
The search-region list built at the start of `searchISBNMultiRegion`
(`lib/read365.ts`): the primary region's code first when it resolves
(`if (primaryRegion)` is a JS truthiness test), then the remaining major
region codes in canonical order while the list stays below `maxRegions`.
-/
def buildSearchRegions (primaryRegion : Option String) (maxRegions : Nat) :
    List String :=
  let init :=
    if truthyS primaryRegion then
      match getProvCode (primaryRegion.getD "") with
      | some c => [c]
      | none => []
    else []
  MAJOR_REGION_CODES.foldl
    (fun acc code =>
      if !acc.contains code && acc.length < maxRegions then acc ++ [code]
      else acc)
    init

/--
`searchISBNMultiRegion` from `lib/read365.ts`.  `perRegion isbn code` models
`searchISBNAllPages(isbn, code)`: either the fetched books or a thrown
transport error.  A failure on one region is caught (`console.warn`) and the
remaining regions are still searched; `totalCount` accumulates
`books.length` per successful region.
-/
def searchISBNMultiRegion (perRegion : String → String → Except String (List Read365Book))
    (isbn : String) (primaryRegion : Option String) (maxRegions : Nat) :
    Nat × List Read365Book :=
  let searchRegions := buildSearchRegions primaryRegion maxRegions
  searchRegions.foldl
    (fun acc regionCode =>
      match perRegion isbn regionCode with
      | .ok books => (acc.1 + books.length, acc.2 ++ books)
      | .error _ => acc)
    (0, [])

/-- The school-name normalization used in `findSchoolBooks`
(`lib/read365.ts`): `name.replace(/\s/g, '').toLowerCase()`. -/
def normalizeSchool (name : String) : String :=
  lowerStr (stripWs name)

/-- The per-book match test of `findSchoolBooks` (`lib/read365.ts`):
after stripping whitespace and lower-casing, either normalized name
contains the other. -/
def schoolNameMatches (candidateSchoolName querySchoolName : String) : Bool :=
  let normalizedSchool := normalizeSchool querySchoolName
  let normalizedBookSchool := normalizeSchool candidateSchoolName
  strIncludes normalizedBookSchool normalizedSchool ||
    strIncludes normalizedSchool normalizedBookSchool

/-- The result type of `findSchoolBooks` (`lib/read365.ts`).  The source
returns exactly the two fields `found` and `matchedSchool`; it does NOT
return a `matchedSchools` list. -/
structure FindResult where
  found : List Read365Book
  matchedSchool : Option String
  deriving Repr, DecidableEq

/-- `findSchoolBooks` from `lib/read365.ts`: filter `books` by the loose
containment test, remembering the first matched book's original school name
(`if (!matchedSchool)` is a JS truthiness test, so an empty matched name is
overwritten by a later one). -/
def findSchoolBooks (books : List Read365Book) (schoolName : String) : FindResult :=
  books.foldl
    (fun acc book =>
      let bookSchool := book.schoolName.getD ""
      if schoolNameMatches bookSchool schoolName then
        { found := acc.found ++ [book],
          matchedSchool :=
            if truthyS acc.matchedSchool then acc.matchedSchool else some bookSchool }
      else acc)
    { found := [], matchedSchool := none }

/-! ## Resolver client (`lib/aladin.ts`) -/

/-- A candidate returned by the Aladin item-search API. -/
structure AladinBook where
  title : String := ""
  author : String := ""
  isbn13 : String := ""
  publisher : String := ""
  deriving Repr, DecidableEq

/-- The result record of `searchISBNByTitleAuthor` (`lib/aladin.ts`). -/
structure AladinResolution where
  isbn13 : Option String
  error : Option String
  candidateCount : Nat
  deriving Repr, DecidableEq

/--
The per-candidate score of the selection loop in `searchISBNByTitleAuthor`
(`lib/aladin.ts`): `0.7 * titleScore + 0.3 * authorScore` where each score
is `Fuzzball.token_set_ratio(..)/100` and the author score is `0` when the
trimmed query author is empty.  `ratio` abstracts the external
`Fuzzball.token_set_ratio` library function (which returns a value in
`[0, 100]`); both needles and the candidate fields are trimmed as in the
source.
-/
def titleAuthorScore (ratio : String → String → ℚ)
    (candTitle candAuthor queryTitle queryAuthor : String) : ℚ :=
  let needleTitle := queryTitle.trim
  let needleAuthor := queryAuthor.trim
  let titleScore := ratio needleTitle candTitle.trim / 100
  let authorScore :=
    if needleAuthor = "" then 0 else ratio needleAuthor candAuthor.trim / 100
  7/10 * titleScore + 3/10 * authorScore

/-- The stable-max candidate selection loop of `searchISBNByTitleAuthor`:
`best` starts `null`, `bestScore` starts `-1`, and only a strictly greater
score replaces the current best (ties keep the first-seen candidate). -/
def bestCandidate (ratio : String → String → ℚ) (title author : String)
    (items : List AladinBook) : Option AladinBook × ℚ :=
  items.foldl
    (fun acc item =>
      let score := titleAuthorScore ratio item.title item.author title author
      if acc.2 < score then (some item, score) else acc)
    (none, -1)

/--
`searchISBNByTitleAuthor` from `lib/aladin.ts`.  `fetchO` models the single
outbound Aladin request (the parsed `data.item || []` list, or a thrown
transport/HTTP error); the second component of the result counts how many
outbound requests were issued.  The numeric rendering inside the
`유사도 미달` message (`bestScore.toFixed(2)` in the source) is not
modelled; no claim depends on it.
-/
def searchISBNByTitleAuthor (ratio : String → String → ℚ)
    (fetchO : Except String (List AladinBook)) (title : String) (author : String)
    (threshold : ℚ) : Except String AladinResolution × Nat :=
  if title = "" then
    (.ok { isbn13 := none, error := some "빈 제목", candidateCount := 0 }, 0)
  else
    match fetchO with
    | .error e => (.error e, 1)
    | .ok items =>
      if items = [] then
        (.ok { isbn13 := none, error := some "검색 결과 없음", candidateCount := 0 }, 1)
      else
        let (best, bestScore) := bestCandidate ratio title author items
        match best with
        | some b =>
          if threshold ≤ bestScore then
            let isbn13 := b.isbn13.trim
            if isbn13 ≠ "" then
              (.ok { isbn13 := some isbn13, error := none,
                     candidateCount := items.length }, 1)
            else
              (.ok { isbn13 := none, error := some "isbn 비어있음",
                     candidateCount := items.length }, 1)
          else
            (.ok { isbn13 := none, error := some "유사도 미달",
                   candidateCount := items.length }, 1)
        | none =>
          (.ok { isbn13 := none, error := some "유사도 미달",
                 candidateCount := items.length }, 1)

/-! ## Result cache (`lib/cache.ts`) -/

/-- An entry of the ISBN-resolution cache (`ISBNResult` in `lib/cache.ts`). -/
structure ISBNCacheEntry where
  isbn13 : Option String
  error : Option String
  deriving Repr, DecidableEq

/-- An entry of the holding cache (`SearchResult` in `lib/cache.ts`). -/
structure SearchCacheEntry where
  found : Bool
  itemCount : Nat
  matchedSchool : Option String
  error : Option String
  deriving Repr, DecidableEq

/-- Insert-or-replace on an association list, modelling `Map.set`. -/
def setAssoc {α : Type} (m : List (String × α)) (k : String) (v : α) :
    List (String × α) :=
  match m with
  | [] => [(k, v)]
  | (k', v') :: rest =>
    if k' = k then (k, v) :: rest else (k', v') :: setAssoc rest k v

/-- The two mappings of the process-wide `ResultCache` (`lib/cache.ts`). -/
structure Cache where
  isbnCache : List (String × ISBNCacheEntry) := []
  searchCache : List (String × SearchCacheEntry) := []
  deriving Repr, DecidableEq

/-- `cache.getISBN` (`lib/cache.ts`), without the hit/miss counters. -/
def Cache.getISBN (c : Cache) (title author : String) : Option ISBNCacheEntry :=
  List.lookup (makeISBNKey title author) c.isbnCache

/-- `cache.setISBN` (`lib/cache.ts`). -/
def Cache.setISBN (c : Cache) (title author : String)
    (isbn13 : Option String) (error : Option String) : Cache :=
  { c with isbnCache := setAssoc c.isbnCache (makeISBNKey title author) ⟨isbn13, error⟩ }

/-- `cache.getSearch` (`lib/cache.ts`), without the hit/miss counters. -/
def Cache.getSearch (c : Cache) (school isbn : String) : Option SearchCacheEntry :=
  List.lookup (makeSearchKey school isbn) c.searchCache

/-- `cache.setSearch` (`lib/cache.ts`). -/
def Cache.setSearch (c : Cache) (school isbn : String) (found : Bool)
    (itemCount : Nat) (matchedSchool : Option String) (error : Option String) : Cache :=
  { c with searchCache :=
      setAssoc c.searchCache (makeSearchKey school isbn) ⟨found, itemCount, matchedSchool, error⟩ }

/-! ## Verification engine (the `/api/verify` route) -/

/-- An input record (`BookRow` in `lib/excel.ts`): 학교명/도서명/저자/출판사. -/
structure BookRow where
  school : String
  title : String
  author : String
  publisher : String
  deriving Repr, DecidableEq

/-- An output row (`ResultRow` in `lib/excel.ts`): the four input fields plus
ISBN13 / 검색학교 / 존재여부 / 사유. -/
structure ResultRow where
  school : String
  title : String
  author : String
  publisher : String
  isbn13 : String
  searchedSchool : String
  existsMark : String
  reason : String
  deriving Repr, DecidableEq

/-- Engine state threaded through the batch loop: the shared cache plus an
instrumentation log of the outbound resolver calls (title, author). -/
structure EngSt where
  cache : Cache := {}
  aladinCalls : List (String × String) := []
  deriving Repr, DecidableEq

/--
Step 1 of the per-record loop of `processVerification`: resolve an ISBN
through the cache.  On a cache hit `candidateCount` stays `0` and the
cached error string (when truthy) becomes the reason verbatim; on a miss
the resolver is called, its result — error reason included — is cached, and
an unresolved ISBN yields a reason prefixed `알라딘 ISBN 미확인: `; a thrown
transport error yields the reason `알라딘 오류: <err>`, which is also
cached.  Returns `((isbn13, candidateCount, reason), state)`.
-/
def resolveISBNStep (resolver : String → String → Except String AladinResolution)
    (st : EngSt) (title author : String) :
    (Option String × Nat × String) × EngSt :=
  match st.cache.getISBN title author with
  | some cached =>
    ((cached.isbn13, 0,
      if truthyS cached.error then cached.error.getD "" else ""), st)
  | none =>
    match resolver title author with
    | .ok result =>
      let st' := { st with
        cache := st.cache.setISBN title author result.isbn13 result.error,
        aladinCalls := st.aladinCalls ++ [(title, author)] }
      let reason :=
        if truthyS result.isbn13 then ""
        else "알라딘 ISBN 미확인: " ++
          (if truthyS result.error then result.error.getD "" else "알 수 없음")
      ((result.isbn13, result.candidateCount, reason), st')
    | .error err =>
      let reason := "알라딘 오류: " ++ err
      let st' := { st with
        cache := st.cache.setISBN title author none (some reason),
        aladinCalls := st.aladinCalls ++ [(title, author)] }
      ((none, 0, reason), st')

/--
Processing of one input record by `processVerification` (the verify route).

* `resolver t a` models `searchISBNByTitleAuthor(ttbKey, t, a, 0.6)` — an
  `AladinResolution` or a thrown transport error;
* `read365 i` models `searchISBNMultiRegion(i)` — per the source it catches
  per-region failures and never throws;
* `tyErr` is the runtime's rendering of the `TypeError` raised at
  `matchedSchools.length`: the route destructures a `matchedSchools` field
  from `findSchoolBooks`, but `findSchoolBooks` does not return such a
  field, so whenever `exists` is true the access `matchedSchools.length`
  throws, the `catch` block records a `Read365 검색 오류` reason and
  overwrites the just-written holding-cache entry with a negative one.
-/
def processRow (resolver : String → String → Except String AladinResolution)
    (read365 : String → Nat × List Read365Book) (tyErr : String)
    (st : EngSt) (row : BookRow) : EngSt × ResultRow :=
  let step1 := resolveISBNStep resolver st row.title row.author
  let isbn13 := step1.1.1
  let candidateCount := step1.1.2.1
  let reason1 := step1.1.2.2
  let st1 := step1.2
  -- step 2: holding lookup through the cache (only when `isbn13` is truthy)
  let step2 : Bool × Option String × String × EngSt :=
    if truthyS isbn13 then
      let i := isbn13.getD ""
      match st1.cache.getSearch row.school i with
      | some cached =>
        (cached.found, cached.matchedSchool,
         if truthyS cached.error then cached.error.getD "" else reason1, st1)
      | none =>
        let tc := read365 i
        let totalCount := tc.1
        let fr := findSchoolBooks tc.2 row.school
        let found := decide (0 < fr.found.length)
        let stA := { st1 with
          cache := st1.cache.setSearch row.school i found fr.found.length fr.matchedSchool none }
        if found then
          -- `matchedSchools.length` throws; the catch block takes over
          let reason := "Read365 검색 오류: " ++ tyErr
          let stB := { stA with
            cache := stA.cache.setSearch row.school i false 0 none (some reason) }
          (true, fr.matchedSchool, reason, stB)
        else
          let reason :=
            if totalCount = 0 then "주요 지역에 등록된 도서 없음"
            else
              row.school ++ "에 없음 (타 학교 " ++ toString totalCount ++ "권 보유)" ++
                (if 1 < candidateCount then
                  " - 동일 제목 " ++ toString candidateCount ++
                    "개 버전 존재, 도서명을 더 정확히 입력하세요"
                 else "")
          (false, fr.matchedSchool, reason, stA)
    else
      (false, none, reason1, st1)
  let found := step2.1
  let matchedSchool := step2.2.1
  let reason := step2.2.2.1
  let st2 := step2.2.2.2
  (st2,
   { school := row.school, title := row.title, author := row.author,
     publisher := row.publisher,
     isbn13 := isbn13.getD "",
     searchedSchool :=
       if truthyS matchedSchool then matchedSchool.getD "" else row.school,
     existsMark := if found then "✅" else "❌",
     reason := reason })

/-! ## Job store and batch loop (`lib/store.ts` and the verify route) -/

/-- `JobStatus` from `lib/store.ts`. -/
inductive JobStatus where
  | pending
  | running
  | completed
  | failed
  deriving Repr, DecidableEq

/-- A job record (`Job` in `lib/store.ts`), without the wall-clock
timestamp fields. -/
structure Job where
  jobId : String
  status : JobStatus
  progress : Nat
  total : Nat
  message : String
  resultFile : Option String
  inputData : List BookRow
  results : List ResultRow
  region : String
  schoolLevel : String
  deriving Repr, DecidableEq

/-- The job created by `POST /api/verify`: status starts at `running`,
`total` is the uploaded file's `totalRows`, which the upload route sets to
`rows.length`. -/
def initialJob (jobId : String) (rows : List BookRow)
    (region schoolLevel : String) : Job :=
  { jobId := jobId, status := .running, progress := 0, total := rows.length,
    message := "처리 시작...", resultFile := none, inputData := rows,
    results := [], region := region, schoolLevel := schoolLevel }

/-- The per-record tail of the loop body of `processVerification`: append
the outcome, bump `progress`, refresh `message`. -/
def stepJob (resolver : String → String → Except String AladinResolution)
    (read365 : String → Nat × List Read365Book) (tyErr : String)
    (st : EngSt) (job : Job) (row : BookRow) : EngSt × Job :=
  let res := processRow resolver read365 tyErr st row
  (res.1,
   { job with
     results := job.results ++ [res.2],
     progress := job.progress + 1,
     message := "처리 중: " ++ toString (job.progress + 1) ++ "/" ++
       toString job.total ++ " - " ++ row.title.take 20 ++ "..." })

/-- The terminal update of `processVerification`: status `completed`,
`resultFile` assigned. -/
def completeJob (job : Job) : Job :=
  { job with
    status := .completed,
    message := "완료! " ++ toString job.inputData.length ++ "권 처리됨 (API 모드)",
    resultFile := some ("result_" ++ job.jobId) }

/-- The `.catch` handler installed by `POST /api/verify`: an uncaught
exception in the loop marks the job `failed` with the error in `message`
(the `resultFile` is left untouched). -/
def failJob (e : String) (job : Job) : Job :=
  { job with status := .failed, message := "오류: " ++ e }

/-- Run the whole `processVerification` loop and the terminal update,
returning the final engine state and job. -/
def runVerification (resolver : String → String → Except String AladinResolution)
    (read365 : String → Nat × List Read365Book) (tyErr : String) :
    EngSt → Job → List BookRow → EngSt × Job
  | st, job, [] => (st, completeJob job)
  | st, job, row :: rest =>
    let s := stepJob resolver read365 tyErr st job row
    runVerification resolver read365 tyErr s.1 s.2 rest

/-- The successive committed job states of a run of `processVerification`
(one `setJob` per processed record, then the terminal `setJob`). -/
def jobStatesFrom (resolver : String → String → Except String AladinResolution)
    (read365 : String → Nat × List Read365Book) (tyErr : String) :
    EngSt → Job → List BookRow → List Job
  | _, job, [] => [completeJob job]
  | st, job, row :: rest =>
    let s := stepJob resolver read365 tyErr st job row
    s.2 :: jobStatesFrom resolver read365 tyErr s.1 s.2 rest

/-- As `jobStatesFrom`, but an uncaught exception `e` is raised while
processing the record at index `failAt` (0-based), so the `.catch` handler
of `POST /api/verify` commits a `failed` state instead. -/
def jobStatesFailFrom (resolver : String → String → Except String AladinResolution)
    (read365 : String → Nat × List Read365Book) (tyErr : String) (e : String) :
    EngSt → Job → List BookRow → Nat → List Job
  | _, job, [], _ => [completeJob job]
  | _, job, _ :: _, 0 => [failJob e job]
  | st, job, row :: rest, failAt + 1 =>
    let s := stepJob resolver read365 tyErr st job row
    s.2 :: jobStatesFailFrom resolver read365 tyErr e s.1 s.2 rest failAt

/-- Every observable state of a job: the state committed by
`POST /api/verify` at creation, then the loop's committed states.
`failAt = some (k, e)` injects an uncaught exception `e` at record `k`. -/
def jobTrace (resolver : String → String → Except String AladinResolution)
    (read365 : String → Nat × List Read365Book) (tyErr : String)
    (jobId : String) (rows : List BookRow) (region schoolLevel : String)
    (failAt : Option (Nat × String)) : List Job :=
  let job0 := initialJob jobId rows region schoolLevel
  job0 ::
    (match failAt with
     | none => jobStatesFrom resolver read365 tyErr {} job0 rows
     | some (k, e) => jobStatesFailFrom resolver read365 tyErr e {} job0 rows k)

/-- Forward distance of a status along the
`pending → running → {completed | failed}` state machine. -/
def statusRank : JobStatus → Nat
  | .pending => 0
  | .running => 1
  | .completed => 2
  | .failed => 2

/-! ## Concrete oracles used by closed instances -/

/-- A catalog page oracle that reports two total pages, each non-empty. -/
def pageOracle2 : Nat → PageResult :=
  fun _ => { totalCount := 200, totalPages := 2,
             books := [{ schoolName := some "서울초등학교" }] }

/-- A catalog page oracle that reports zero total pages with a non-empty
book list (the service may well answer like this for a sparse ISBN). -/
def pageOracle0 : Nat → PageResult :=
  fun _ => { totalCount := 1, totalPages := 0,
             books := [{ schoolName := some "부산중학교" }] }

/-- A resolver oracle that always resolves with two candidate matches. -/
def resolverTwoCandidates : String → String → Except String AladinResolution :=
  fun _ _ => .ok { isbn13 := some "9788901111111", error := none, candidateCount := 2 }

/-- A catalog oracle whose holders include two distinct school names that
both match the query school "중앙초등학교". -/
def read365TwoMatches : String → Nat × List Read365Book :=
  fun _ => (2, [{ schoolName := some "중앙초등학교" },
                { schoolName := some "중앙초등학교병설유치원" }])

/-- A three-record batch whose middle record's resolver call will throw. -/
def claim9Rows : List BookRow :=
  [⟨"가초등학교", "책A", "저자A", "출판A"⟩,
   ⟨"나초등학교", "책B", "저자B", "출판B"⟩,
   ⟨"다초등학교", "책C", "저자C", "출판C"⟩]

/-- A resolver oracle that throws a transport error exactly on the middle
record of `claim9Rows` and resolves the other two. -/
def aladinC9 : String → String → Except String AladinResolution :=
  fun t _ =>
    if t = "책A" then .ok { isbn13 := some "9788911111111", error := none, candidateCount := 1 }
    else if t = "책B" then .error "fetch failed"
    else .ok { isbn13 := some "9788933333333", error := none, candidateCount := 1 }

/-- A catalog oracle with no holdings anywhere. -/
def read365Empty : String → Nat × List Read365Book :=
  fun _ => (0, [])

/-! ## Helper lemmas -/

theorem listIsInfix_iff (needle hay : List Char) :
    listIsInfix needle hay = true ↔ needle <:+: hay := by
  induction hay with
  | nil => simp [listIsInfix, List.isEmpty_iff, List.infix_nil]
  | cons c rest ih =>
    simp [listIsInfix, List.isPrefixOf_iff_prefix, ih, List.infix_cons_iff]

theorem lookup_setAssoc_self {α : Type} (m : List (String × α)) (k : String) (v : α) :
    List.lookup k (setAssoc m k v) = some v := by
  induction m with
  | nil => simp [setAssoc, List.lookup]
  | cons p rest ih =>
    obtain ⟨k', v'⟩ := p
    by_cases h : k' = k
    · simp [setAssoc, h, List.lookup]
    · simp only [setAssoc, if_neg h, List.lookup]
      have : (k == k') = false := by
        simp [Ne.symm h]
      simp [this, ih]

/-! ## Claim theorems -/

/--
C2: for every call to `searchISBNByTitleAuthor` whose query title is blank
(the source's `if (!title)` test: the empty string), the result carries no
ISBN, the error reason `빈 제목` ("empty title") and candidate count `0`,
and no outbound resolver request is issued (the call counter is `0`).
-/
theorem claim2_blank_title_fails_fast (ratio : String → String → ℚ)
    (fetchO : Except String (List AladinBook)) (author : String) (threshold : ℚ) :
    searchISBNByTitleAuthor ratio fetchO "" author threshold =
      (.ok { isbn13 := none, error := some "빈 제목", candidateCount := 0 }, 0) := by
  simp [searchISBNByTitleAuthor]

/--
C7: `schoolNameMatches` is true exactly when, after stripping all
whitespace and lower-casing both school names, one is a substring of the
other; it holds for ("OO Elementary School", "OOElementarySchool") and
fails for ("Central Elementary", "North Elementary").
-/
theorem claim7_schoolNameMatches_spec :
    (∀ candidate query : String,
      schoolNameMatches candidate query = true ↔
        ((normalizeSchool query).data <:+: (normalizeSchool candidate).data ∨
         (normalizeSchool candidate).data <:+: (normalizeSchool query).data)) ∧
    schoolNameMatches "OO Elementary School" "OOElementarySchool" = true ∧
    schoolNameMatches "Central Elementary" "North Elementary" = false := by
  refine ⟨?_, by decide, by decide⟩
  intro candidate query
  simp [schoolNameMatches, strIncludes, listIsInfix_iff]

/--
C10: the `totalCount` returned by `searchISBNMultiRegion` always equals the
length of its returned `books` list (the entries actually fetched across
the searched partitions), for every per-region oracle, ISBN, preferred
region and partition bound — it is not the catalog's reported holder count.
-/
theorem claim10_totalCount_eq_books_length
    (perRegion : String → String → Except String (List Read365Book))
    (isbn : String) (primaryRegion : Option String) (maxRegions : Nat) :
    (searchISBNMultiRegion perRegion isbn primaryRegion maxRegions).1 =
      (searchISBNMultiRegion perRegion isbn primaryRegion maxRegions).2.length := by
  unfold searchISBNMultiRegion
  have inv : ∀ (l : List String) (acc : Nat × List Read365Book),
      acc.1 = acc.2.length →
      (l.foldl (fun acc regionCode =>
        match perRegion isbn regionCode with
        | .ok books => (acc.1 + books.length, acc.2 ++ books)
        | .error _ => acc) acc).1 =
      (l.foldl (fun acc regionCode =>
        match perRegion isbn regionCode with
        | .ok books => (acc.1 + books.length, acc.2 ++ books)
        | .error _ => acc) acc).2.length := by
    intro l
    induction l with
    | nil => intro acc h; simpa using h
    | cons c rest ih =>
      intro acc h
      simp only [List.foldl_cons]
      cases hc : perRegion isbn c with
      | ok books => exact ih _ (by simp [h])
      | error e => exact ih _ h
  exact inv _ (0, []) rfl

/--
C6: the per-candidate score of the resolver equals
`0.7 * sim(queryTitle, candTitle) + 0.3 * (queryAuthor empty ? 0 :
sim(queryAuthor, candAuthor))` — where `sim` is the trimmed
`token_set_ratio / 100` — and, since `token_set_ratio` ranges over
`[0, 100]`, the score lies in `[0, 1]`.
-/
theorem claim6_titleAuthorScore_range (ratio : String → String → ℚ)
    (hr : ∀ s t, 0 ≤ ratio s t ∧ ratio s t ≤ 100)
    (candTitle candAuthor queryTitle queryAuthor : String) :
    titleAuthorScore ratio candTitle candAuthor queryTitle queryAuthor =
      7/10 * (ratio queryTitle.trim candTitle.trim / 100) +
      3/10 * (if queryAuthor.trim = "" then 0
              else ratio queryAuthor.trim candAuthor.trim / 100) ∧
    0 ≤ titleAuthorScore ratio candTitle candAuthor queryTitle queryAuthor ∧
    titleAuthorScore ratio candTitle candAuthor queryTitle queryAuthor ≤ 1 := by
  obtain ⟨ht0, ht1⟩ := hr queryTitle.trim candTitle.trim
  obtain ⟨ha0, ha1⟩ := hr queryAuthor.trim candAuthor.trim
  have htd0 : (0:ℚ) ≤ ratio queryTitle.trim candTitle.trim / 100 :=
    div_nonneg ht0 (by norm_num)
  have htd1 : ratio queryTitle.trim candTitle.trim / 100 ≤ 1 :=
    (div_le_one (by norm_num)).2 ht1
  have had0 : (0:ℚ) ≤ ratio queryAuthor.trim candAuthor.trim / 100 :=
    div_nonneg ha0 (by norm_num)
  have had1 : ratio queryAuthor.trim candAuthor.trim / 100 ≤ 1 :=
    (div_le_one (by norm_num)).2 ha1
  refine ⟨rfl, ?_, ?_⟩ <;>
    · unfold titleAuthorScore
      by_cases hqa : queryAuthor.trim = "" <;> simp only [hqa, if_true, if_false] <;>
        linarith

/-- Paging-loop invariant: when every response reports the same
`totalPages = T` and the fuel covers the remaining pages, the loop of
`searchISBNAllPages` exits by itself, every requested page number lies in
`[page, max T page]`, and the number of requests is at most
`max T page + 1 - page`. -/
theorem searchAllPagesGo_spec (fetch : Nat → PageResult) (T : Nat)
    (hT : ∀ p, (fetch p).totalPages = T) :
    ∀ (fuel page : Nat), 1 ≤ fuel → T + 1 ≤ page + fuel →
      (searchAllPagesGo fetch fuel page).2.2 = true ∧
      (∀ p ∈ (searchAllPagesGo fetch fuel page).1, page ≤ p ∧ p ≤ max T page) ∧
      (searchAllPagesGo fetch fuel page).1.length + page ≤ max T page + 1 := by
  intro fuel
  induction fuel with
  | zero => intro page h1 _; omega
  | succ fuel ih =>
    intro page _ hTp
    have hTpage := hT page
    by_cases hb : (fetch page).books = []
    · have hgo : searchAllPagesGo fetch (fuel + 1) page = ([page], [], true) := by
        simp [searchAllPagesGo, hb]
      rw [hgo]
      refine ⟨rfl, ?_, ?_⟩
      · intro p hp
        simp only [List.mem_singleton] at hp
        omega
      · simp only [List.length_singleton]
        omega
    · by_cases hle : (fetch page).totalPages ≤ page
      · have hgo : searchAllPagesGo fetch (fuel + 1) page =
            ([page], (fetch page).books, true) := by
          simp [searchAllPagesGo, hb, hle]
        rw [hgo]
        refine ⟨rfl, ?_, ?_⟩
        · intro p hp
          simp only [List.mem_singleton] at hp
          omega
        · simp only [List.length_singleton]
          omega
      · have hlt : page < T := by omega
        have hih := ih (page + 1) (by omega) (by omega)
        have hgo : searchAllPagesGo fetch (fuel + 1) page =
            (page :: (searchAllPagesGo fetch fuel (page + 1)).1,
             (fetch page).books ++ (searchAllPagesGo fetch fuel (page + 1)).2.1,
             (searchAllPagesGo fetch fuel (page + 1)).2.2) := by
          simp [searchAllPagesGo, hb, hle]
        rw [hgo]
        refine ⟨hih.1, ?_, ?_⟩
        · intro p hp
          simp only [List.mem_cons] at hp
          rcases hp with rfl | hp
          · omega
          · have := hih.2.1 p hp
            omega
        · simp only [List.length_cons]
          have := hih.2.2
          omega

/--
C3 (amended): when the service consistently reports `totalPages = T`, the
paging loop of `searchISBNAllPages` terminates within `max T 1` page
requests and never requests a page beyond `max T 1`; in particular, for
`T ≥ 1` it never requests page `T + 1`, even when the page at exactly `T`
is non-empty.  (The claim's bound of `totalPages` requests fails at
`T = 0`, where the loop still issues its initial request for page 1 —
see the counterexample.)
-/
theorem claim3_pagination_bounded (fetch : Nat → PageResult) (T : Nat)
    (hT : ∀ p, (fetch p).totalPages = T) :
    (searchISBNAllPages fetch (max T 1)).2.2 = true ∧
    (∀ p ∈ (searchISBNAllPages fetch (max T 1)).1, 1 ≤ p ∧ p ≤ max T 1) ∧
    (searchISBNAllPages fetch (max T 1)).1.length ≤ max T 1 := by
  have h := searchAllPagesGo_spec fetch T hT (max T 1) 1 (by omega) (by omega)
  unfold searchISBNAllPages
  refine ⟨h.1, ?_, ?_⟩
  · intro p hp
    have := h.2.1 p hp
    omega
  · have := h.2.2
    omega

/-- Closed instance of C3's amended bound: two consistently-reported pages,
both non-empty: the loop exits by itself within `max 2 1 = 2` requests. -/
theorem claim3_pagination_bounded_witness :
    (searchISBNAllPages pageOracle2 (max 2 1)).2.2 = true ∧
    (searchISBNAllPages pageOracle2 (max 2 1)).1.length ≤ max 2 1 :=
  ⟨(claim3_pagination_bounded pageOracle2 2 (fun _ => rfl)).1,
   (claim3_pagination_bounded pageOracle2 2 (fun _ => rfl)).2.2⟩

/-- Counterexample to C3 as stated: when the service reports
`totalPages = 0` (with a non-empty book list), the loop still issues one
request — for page `1 = totalPages + 1` — so it neither stays within
`totalPages` requests nor avoids page `totalPages + 1`. -/
theorem claim3_counterexample_totalPages_zero :
    (searchISBNAllPages pageOracle0 1).1 = [1] ∧
    (searchISBNAllPages pageOracle0 1).2.2 = true ∧
    (pageOracle0 1).totalPages = 0 ∧
    ¬((searchISBNAllPages pageOracle0 1).1.length ≤ (pageOracle0 1).totalPages) ∧
    ((pageOracle0 1).totalPages + 1) ∈ (searchISBNAllPages pageOracle0 1).1 := by
  decide

/--
C5 (amended): a second resolution of a (title, author) pair whose cache key
equals a previously resolved pair's key — casing and whitespace variants
included — changes nothing (it hits the cache: no outbound call, no state
change) and returns the same `isbn13`; the first resolution makes at most
one outbound call.  (The full results are not identical: `candidateCount`
is not cached, so the cache hit reports `0` — see the counterexample.)
-/
theorem claim5_cache_idempotent_isbn
    (resolver : String → String → Except String AladinResolution)
    (st : EngSt) (t1 a1 t2 a2 : String)
    (hkey : makeISBNKey t2 a2 = makeISBNKey t1 a1) :
    (resolveISBNStep resolver (resolveISBNStep resolver st t1 a1).2 t2 a2).2 =
      (resolveISBNStep resolver st t1 a1).2 ∧
    (resolveISBNStep resolver st t1 a1).2.aladinCalls.length ≤
      st.aladinCalls.length + 1 ∧
    (resolveISBNStep resolver (resolveISBNStep resolver st t1 a1).2 t2 a2).1.1 =
      (resolveISBNStep resolver st t1 a1).1.1 := by
  unfold resolveISBNStep Cache.getISBN
  cases hc : List.lookup (makeISBNKey t1 a1) st.cache.isbnCache with
  | some cached =>
    simp only [hc, hkey]
    exact ⟨trivial, by omega, trivial⟩
  | none =>
    cases hr : resolver t1 a1 with
    | ok result =>
      simp only [hc, hr, Cache.setISBN, hkey, lookup_setAssoc_self,
        List.length_append, List.length_singleton]
      exact ⟨trivial, by omega, trivial⟩
    | error err =>
      simp only [hc, hr, Cache.setISBN, hkey, lookup_setAssoc_self,
        List.length_append, List.length_singleton]
      exact ⟨trivial, by omega, trivial⟩

/-- Closed instance of C5's amended statement, at a pair differing only in
casing and whitespace ("Harry Potter"/"J.K. Rowling" versus
"harry potter"/"J.K.Rowling"). -/
theorem claim5_cache_idempotent_isbn_witness :
    (resolveISBNStep resolverTwoCandidates
        (resolveISBNStep resolverTwoCandidates {} "Harry Potter" "J.K. Rowling").2
        "harry potter" "J.K.Rowling").2 =
      (resolveISBNStep resolverTwoCandidates {} "Harry Potter" "J.K. Rowling").2 ∧
    (resolveISBNStep resolverTwoCandidates {} "Harry Potter" "J.K. Rowling").2.aladinCalls.length ≤
      (({} : EngSt)).aladinCalls.length + 1 ∧
    (resolveISBNStep resolverTwoCandidates
        (resolveISBNStep resolverTwoCandidates {} "Harry Potter" "J.K. Rowling").2
        "harry potter" "J.K.Rowling").1.1 =
      (resolveISBNStep resolverTwoCandidates {} "Harry Potter" "J.K. Rowling").1.1 :=
  claim5_cache_idempotent_isbn resolverTwoCandidates {} "Harry Potter" "J.K. Rowling"
    "harry potter" "J.K.Rowling" (by decide)

/-- Counterexample to C5 as stated: the cached second resolution of the very
same (title, author) pair does not yield an identical result — the first
reports `candidateCount = 2`, the cache hit reports `0`. -/
theorem claim5_counterexample_candidateCount :
    (resolveISBNStep resolverTwoCandidates {} "해리포터" "롤링").1.2.1 = 2 ∧
    (resolveISBNStep resolverTwoCandidates
        (resolveISBNStep resolverTwoCandidates {} "해리포터" "롤링").2
        "해리포터" "롤링").1.2.1 = 0 ∧
    (resolveISBNStep resolverTwoCandidates
        (resolveISBNStep resolverTwoCandidates {} "해리포터" "롤링").2
        "해리포터" "롤링").1 ≠
      (resolveISBNStep resolverTwoCandidates {} "해리포터" "롤링").1 := by
  decide

/-- Closed instance of C6 at a concrete ratio function and inputs. -/
theorem claim6_titleAuthorScore_range_witness :
    0 ≤ titleAuthorScore (fun _ _ => 50) "책" "글쓴이" "책이름" "" ∧
    titleAuthorScore (fun _ _ => 50) "책" "글쓴이" "책이름" "" ≤ 1 :=
  (claim6_titleAuthorScore_range (fun _ _ => 50)
    (fun _ _ => ⟨show (0:ℚ) ≤ 50 by decide, show (50:ℚ) ≤ 100 by decide⟩)
    "책" "글쓴이" "책이름" "").2

@[simp] theorem stepJob_snd_status (resolver : String → String → Except String AladinResolution)
    (read365 : String → Nat × List Read365Book) (tyErr : String)
    (st : EngSt) (job : Job) (row : BookRow) :
    (stepJob resolver read365 tyErr st job row).2.status = job.status := rfl

@[simp] theorem stepJob_snd_resultFile (resolver : String → String → Except String AladinResolution)
    (read365 : String → Nat × List Read365Book) (tyErr : String)
    (st : EngSt) (job : Job) (row : BookRow) :
    (stepJob resolver read365 tyErr st job row).2.resultFile = job.resultFile := rfl

@[simp] theorem stepJob_snd_total (resolver : String → String → Except String AladinResolution)
    (read365 : String → Nat × List Read365Book) (tyErr : String)
    (st : EngSt) (job : Job) (row : BookRow) :
    (stepJob resolver read365 tyErr st job row).2.total = job.total := rfl

@[simp] theorem stepJob_snd_progress (resolver : String → String → Except String AladinResolution)
    (read365 : String → Nat × List Read365Book) (tyErr : String)
    (st : EngSt) (job : Job) (row : BookRow) :
    (stepJob resolver read365 tyErr st job row).2.progress = job.progress + 1 := rfl

/-- All states committed by the failure-free loop keep `progress ≤ total`
and have `resultFile` set exactly at `completed`. -/
theorem jobStatesFrom_invariant (resolver : String → String → Except String AladinResolution)
    (read365 : String → Nat × List Read365Book) (tyErr : String) :
    ∀ (rows : List BookRow) (st : EngSt) (job : Job),
      job.status = .running → job.resultFile = none →
      job.progress + rows.length ≤ job.total →
      ∀ s ∈ jobStatesFrom resolver read365 tyErr st job rows,
        s.progress ≤ s.total ∧ (s.resultFile.isSome ↔ s.status = .completed) := by
  intro rows
  induction rows with
  | nil =>
    intro st job hst hrf hpt s hs
    simp only [jobStatesFrom, List.mem_singleton] at hs
    subst hs
    refine ⟨by simp [completeJob]; omega, by simp [completeJob]⟩
  | cons row rest ih =>
    intro st job hst hrf hpt s hs
    simp only [List.length_cons] at hpt
    simp only [jobStatesFrom, List.mem_cons] at hs
    rcases hs with rfl | hs
    · refine ⟨by simp; omega, by simp [hrf, hst]⟩
    · refine ih _ _ (by simp [hst]) (by simp [hrf]) (by simp; omega) s hs

/-- All states committed by the loop when an uncaught exception hits record
`failAt` keep the same two invariants. -/
theorem jobStatesFailFrom_invariant (resolver : String → String → Except String AladinResolution)
    (read365 : String → Nat × List Read365Book) (tyErr e : String) :
    ∀ (rows : List BookRow) (failAt : Nat) (st : EngSt) (job : Job),
      job.status = .running → job.resultFile = none →
      job.progress + rows.length ≤ job.total →
      ∀ s ∈ jobStatesFailFrom resolver read365 tyErr e st job rows failAt,
        s.progress ≤ s.total ∧ (s.resultFile.isSome ↔ s.status = .completed) := by
  intro rows
  induction rows with
  | nil =>
    intro failAt st job hst hrf hpt s hs
    simp only [jobStatesFailFrom, List.mem_singleton] at hs
    subst hs
    refine ⟨by simp [completeJob]; omega, by simp [completeJob]⟩
  | cons row rest ih =>
    intro failAt st job hst hrf hpt s hs
    simp only [List.length_cons] at hpt
    cases failAt with
    | zero =>
      simp only [jobStatesFailFrom, List.mem_singleton] at hs
      subst hs
      refine ⟨by simp [failJob]; omega, by simp [failJob, hrf]⟩
    | succ k =>
      simp only [jobStatesFailFrom, List.mem_cons] at hs
      rcases hs with rfl | hs
      · refine ⟨by simp; omega, by simp [hrf, hst]⟩
      · refine ih _ _ _ (by simp [hst]) (by simp [hrf]) (by simp; omega) s hs

/-- The status ranks along the failure-free loop's states never decrease. -/
theorem jobStatesFrom_chain (resolver : String → String → Except String AladinResolution)
    (read365 : String → Nat × List Read365Book) (tyErr : String) :
    ∀ (rows : List BookRow) (st : EngSt) (job : Job), job.status = .running →
      List.Chain' (fun a b => statusRank a.status ≤ statusRank b.status)
        (job :: jobStatesFrom resolver read365 tyErr st job rows) := by
  intro rows
  induction rows with
  | nil =>
    intro st job hst
    simp [jobStatesFrom, List.chain'_cons, completeJob, hst, statusRank]
  | cons row rest ih =>
    intro st job hst
    simp only [jobStatesFrom]
    rw [List.chain'_cons]
    exact ⟨by simp [hst, statusRank], ih _ _ (by simp [hst])⟩

/-- The status ranks along the failure-injected loop's states never decrease. -/
theorem jobStatesFailFrom_chain (resolver : String → String → Except String AladinResolution)
    (read365 : String → Nat × List Read365Book) (tyErr e : String) :
    ∀ (rows : List BookRow) (failAt : Nat) (st : EngSt) (job : Job),
      job.status = .running →
      List.Chain' (fun a b => statusRank a.status ≤ statusRank b.status)
        (job :: jobStatesFailFrom resolver read365 tyErr e st job rows failAt) := by
  intro rows
  induction rows with
  | nil =>
    intro failAt st job hst
    simp [jobStatesFailFrom, List.chain'_cons, completeJob, hst, statusRank]
  | cons row rest ih =>
    intro failAt st job hst
    cases failAt with
    | zero =>
      simp [jobStatesFailFrom, List.chain'_cons, failJob, hst, statusRank]
    | succ k =>
      simp only [jobStatesFailFrom]
      rw [List.chain'_cons]
      exact ⟨by simp [hst, statusRank], ih _ _ _ (by simp [hst])⟩

/--
C4: along every reachable committed job state — creation by
`POST /api/verify`, each per-record commit, the terminal commit, with or
without an uncaught exception — `progress` never exceeds `total`, the status
rank along `pending → running → {completed | failed}` never moves backward,
and `resultFile` is set exactly when the status is `completed`.
-/
theorem claim4_job_invariants (resolver : String → String → Except String AladinResolution)
    (read365 : String → Nat × List Read365Book) (tyErr jobId region schoolLevel : String)
    (rows : List BookRow) (failAt : Option (Nat × String)) :
    (∀ s ∈ jobTrace resolver read365 tyErr jobId rows region schoolLevel failAt,
      s.progress ≤ s.total ∧ (s.resultFile.isSome ↔ s.status = .completed)) ∧
    List.Chain' (fun a b => statusRank a.status ≤ statusRank b.status)
      (jobTrace resolver read365 tyErr jobId rows region schoolLevel failAt) := by
  unfold jobTrace
  cases failAt with
  | none =>
    constructor
    · intro s hs
      simp only [List.mem_cons] at hs
      rcases hs with rfl | hs
      · exact ⟨by simp [initialJob], by simp [initialJob]⟩
      · exact jobStatesFrom_invariant resolver read365 tyErr rows _ _ rfl rfl
          (by simp [initialJob]) s hs
    · exact jobStatesFrom_chain resolver read365 tyErr rows _ _ rfl
  | some ke =>
    obtain ⟨k, e⟩ := ke
    constructor
    · intro s hs
      simp only [List.mem_cons] at hs
      rcases hs with rfl | hs
      · exact ⟨by simp [initialJob], by simp [initialJob]⟩
      · exact jobStatesFailFrom_invariant resolver read365 tyErr e rows k _ _ rfl rfl
          (by simp [initialJob]) s hs
    · exact jobStatesFailFrom_chain resolver read365 tyErr e rows k _ _ rfl

theorem mem_of_lookup_eq_some {α : Type} {l : List (String × α)} {a : String} {b : α}
    (h : List.lookup a l = some b) : (a, b) ∈ l := by
  induction l with
  | nil => simp [List.lookup] at h
  | cons p rest ih =>
    obtain ⟨k, v⟩ := p
    simp only [List.lookup] at h
    by_cases hk : a = k
    · subst hk
      simp only [beq_self_eq_true] at h
      injection h with h
      subst h
      exact List.mem_cons_self _ _
    · have hbe : (a == k) = false := by simp [hk]
      simp only [hbe] at h
      exact List.mem_cons_of_mem _ (ih h)

/-- Every region code that `getProvCode` can produce is one of the major
region codes. -/
theorem getProvCode_mem (r c : String) (h : getProvCode r = some c) :
    c ∈ MAJOR_REGION_CODES := by
  have hmem : (r, c) ∈ REGION_CODE_MAP := mem_of_lookup_eq_some h
  have hall : ∀ p ∈ REGION_CODE_MAP, p.2 ∈ MAJOR_REGION_CODES := by decide
  exact hall _ hmem

/-- When the primary region resolves to a code, the region list is the
major-codes fold seeded with that code. -/
theorem buildSearchRegions_some (r c : String) (hc : getProvCode r = some c) (m : Nat) :
    buildSearchRegions (some r) m =
      MAJOR_REGION_CODES.foldl
        (fun acc code => if !acc.contains code && acc.length < m then acc ++ [code]
         else acc) [c] := by
  have hr0 : r ≠ "" := by
    intro h
    subst h
    rw [show getProvCode "" = none from by decide] at hc
    exact Option.noConfusion hc
  simp [buildSearchRegions, truthyS, hr0, hc]

/-- Without a primary region the region list is the major-codes fold seeded
empty. -/
theorem buildSearchRegions_none_eq (m : Nat) :
    buildSearchRegions none m =
      MAJOR_REGION_CODES.foldl
        (fun acc code => if !acc.contains code && acc.length < m then acc ++ [code]
         else acc) [] := by
  simp [buildSearchRegions, truthyS]

/-- With an unresolvable primary region the region list is the major-codes
fold seeded empty. -/
theorem buildSearchRegions_noProv (r : String) (hc : getProvCode r = none) (m : Nat) :
    buildSearchRegions (some r) m =
      MAJOR_REGION_CODES.foldl
        (fun acc code => if !acc.contains code && acc.length < m then acc ++ [code]
         else acc) [] := by
  by_cases hr : r = "" <;> simp [buildSearchRegions, truthyS, hr, hc]

set_option maxHeartbeats 1000000 in
/-- Expansion of the region-list fold seeded with a major code: the seed
comes first, then the first five other major codes in canonical order;
the result has no duplicates and at most six entries. -/
theorem majorFold_seeded : ∀ c ∈ MAJOR_REGION_CODES,
    MAJOR_REGION_CODES.foldl
        (fun acc code => if !acc.contains code && acc.length < 6 then acc ++ [code]
         else acc) [c] =
      c :: (MAJOR_REGION_CODES.filter (fun x => x ≠ c)).take 5 ∧
    (MAJOR_REGION_CODES.foldl
        (fun acc code => if !acc.contains code && acc.length < 6 then acc ++ [code]
         else acc) [c]).Nodup ∧
    (MAJOR_REGION_CODES.foldl
        (fun acc code => if !acc.contains code && acc.length < 6 then acc ++ [code]
         else acc) [c]).length ≤ 6 := by
  decide

/-- Expansion of the region-list fold seeded empty: the first six major
codes in canonical order. -/
theorem majorFold_empty :
    MAJOR_REGION_CODES.foldl
        (fun acc code => if !acc.contains code && acc.length < 6 then acc ++ [code]
         else acc) [] =
      MAJOR_REGION_CODES.take 6 ∧
    (MAJOR_REGION_CODES.foldl
        (fun acc code => if !acc.contains code && acc.length < 6 then acc ++ [code]
         else acc) []).Nodup ∧
    (MAJOR_REGION_CODES.foldl
        (fun acc code => if !acc.contains code && acc.length < 6 then acc ++ [code]
         else acc) []).length ≤ 6 := by
  decide

/-- The accumulated book list only grows along the multi-region fold. -/
theorem multiRegion_acc_sublist
    (perRegion : String → String → Except String (List Read365Book)) (isbn : String) :
    ∀ (l : List String) (acc : Nat × List Read365Book),
      acc.2.Sublist ((l.foldl (fun acc regionCode =>
        match perRegion isbn regionCode with
        | .ok books => (acc.1 + books.length, acc.2 ++ books)
        | .error _ => acc) acc).2) := by
  intro l
  induction l with
  | nil => intro acc; exact List.Sublist.refl _
  | cons c rest ih =>
    intro acc
    simp only [List.foldl_cons]
    cases hc : perRegion isbn c with
    | ok books =>
      simp only [hc]
      exact List.Sublist.trans (List.sublist_append_left acc.2 books)
        (ih (acc.1 + books.length, acc.2 ++ books))
    | error e =>
      simp only [hc]
      exact ih acc

/-- The books of any region that answered successfully stay in the
aggregate, whatever the other regions do. -/
theorem multiRegion_ok_sublist
    (perRegion : String → String → Except String (List Read365Book)) (isbn : String) :
    ∀ (l : List String) (acc : Nat × List Read365Book) (rc : String)
      (books : List Read365Book), rc ∈ l → perRegion isbn rc = .ok books →
      books.Sublist ((l.foldl (fun acc regionCode =>
        match perRegion isbn regionCode with
        | .ok books => (acc.1 + books.length, acc.2 ++ books)
        | .error _ => acc) acc).2) := by
  intro l
  induction l with
  | nil => intro acc rc books h; simp at h
  | cons c rest ih =>
    intro acc rc books hmem hok
    simp only [List.mem_cons] at hmem
    simp only [List.foldl_cons]
    rcases hmem with rfl | hmem
    · rw [hok]
      exact List.Sublist.trans (List.sublist_append_right acc.2 books)
        (multiRegion_acc_sublist perRegion isbn rest (acc.1 + books.length, acc.2 ++ books))
    · exact ih _ rc books hmem hok

set_option maxHeartbeats 2000000 in
/--
C8: at the default `maxPartitions = 6`, `searchISBNMultiRegion` queries an
ordered partition list with the preferred partition's code first when it
resolves, followed by the remaining major partitions in their fixed
canonical order, deduplicated and at most six long; and a thrown failure on
one partition does not drop the books fetched from any partition that
succeeded.
-/
theorem claim8_partition_list_and_fault_isolation (primaryRegion : Option String) :
    ((buildSearchRegions primaryRegion 6).Nodup ∧
     (buildSearchRegions primaryRegion 6).length ≤ 6) ∧
    (∀ r c, primaryRegion = some r → getProvCode r = some c →
      buildSearchRegions primaryRegion 6 =
        c :: (MAJOR_REGION_CODES.filter (fun x => x ≠ c)).take 5) ∧
    ((∀ r, primaryRegion = some r → getProvCode r = none) →
      buildSearchRegions primaryRegion 6 = MAJOR_REGION_CODES.take 6) ∧
    (∀ (perRegion : String → String → Except String (List Read365Book))
       (isbn rc : String) (books : List Read365Book),
      rc ∈ buildSearchRegions primaryRegion 6 → perRegion isbn rc = .ok books →
      books.Sublist (searchISBNMultiRegion perRegion isbn primaryRegion 6).2) := by
  have hiso : ∀ (perRegion : String → String → Except String (List Read365Book))
      (isbn rc : String) (books : List Read365Book),
      rc ∈ buildSearchRegions primaryRegion 6 → perRegion isbn rc = .ok books →
      books.Sublist (searchISBNMultiRegion perRegion isbn primaryRegion 6).2 := by
    intro perRegion isbn rc books hmem hok
    unfold searchISBNMultiRegion
    exact multiRegion_ok_sublist perRegion isbn _ _ rc books hmem hok
  cases primaryRegion with
  | none =>
    refine ⟨⟨?_, ?_⟩, ?_, ?_, hiso⟩
    · rw [buildSearchRegions_none_eq]
      exact majorFold_empty.2.1
    · rw [buildSearchRegions_none_eq]
      exact majorFold_empty.2.2
    · intro r c h
      exact Option.noConfusion h
    · intro _
      rw [buildSearchRegions_none_eq]
      exact majorFold_empty.1
  | some r =>
    cases hc : getProvCode r with
    | some c =>
      have hcM : c ∈ MAJOR_REGION_CODES := getProvCode_mem r c hc
      have hb := buildSearchRegions_some r c hc 6
      refine ⟨⟨?_, ?_⟩, ?_, ?_, hiso⟩
      · rw [hb]
        exact (majorFold_seeded c hcM).2.1
      · rw [hb]
        exact (majorFold_seeded c hcM).2.2
      · intro r' c' h hc'
        cases h
        rw [hc] at hc'
        cases hc'
        rw [hb]
        exact (majorFold_seeded c hcM).1
      · intro hnone
        rw [hnone r rfl] at hc
        exact Option.noConfusion hc
    | none =>
      have hb := buildSearchRegions_noProv r hc 6
      refine ⟨⟨?_, ?_⟩, ?_, ?_, hiso⟩
      · rw [hb]
        exact majorFold_empty.2.1
      · rw [hb]
        exact majorFold_empty.2.2
      · intro r' c' h hc'
        cases h
        rw [hc] at hc'
        exact Option.noConfusion hc'
      · intro _
        rw [hb]
        exact majorFold_empty.1

/-- Closed instance of C8: the preferred region 서울 resolves to B10, which
heads the list, and a successful partition's books survive the others'
failures. -/
theorem claim8_partition_list_and_fault_isolation_witness :
    (buildSearchRegions (some "서울") 6).Nodup ∧
    buildSearchRegions (some "서울") 6 =
      "B10" :: (MAJOR_REGION_CODES.filter (fun x => x ≠ "B10")).take 5 ∧
    [({ schoolName := some "어느학교" } : Read365Book)].Sublist
      (searchISBNMultiRegion
        (fun _ rc => if rc = "B10" then .ok [{ schoolName := some "어느학교" }]
         else .error "HTTP 500")
        "9788901111111" (some "서울") 6).2 :=
  ⟨(claim8_partition_list_and_fault_isolation (some "서울")).1.1,
   (claim8_partition_list_and_fault_isolation (some "서울")).2.1 "서울" "B10" rfl
     (by decide),
   (claim8_partition_list_and_fault_isolation (some "서울")).2.2.2
     (fun _ rc => if rc = "B10" then .ok [{ schoolName := some "어느학교" }]
      else .error "HTTP 500")
     "9788901111111" "B10" [{ schoolName := some "어느학교" }] (by decide) (by simp)⟩

/--
C1 (the code at the failing input): when the catalog holds the queried book
at two distinct matching school names — the claim's ambiguity case — the
engine's outcome does not carry the `동명 학교 ... 매칭` reason built from
the matched names: `findSchoolBooks` returns no `matchedSchools` field, the
route's `matchedSchools.length` access throws, and the caught `TypeError`
makes the reason `Read365 검색 오류: <TypeError>` while the holding cache is
overwritten with a `found = false` entry.
-/
theorem claim1_found_holding_reason_is_typeerror (tyErr : String) :
    (processRow resolverTwoCandidates read365TwoMatches tyErr {}
        ⟨"중앙초등학교", "어떤책", "저자", "출판"⟩).2.existsMark = "✅" ∧
    (processRow resolverTwoCandidates read365TwoMatches tyErr {}
        ⟨"중앙초등학교", "어떤책", "저자", "출판"⟩).2.reason =
      "Read365 검색 오류: " ++ tyErr ∧
    (processRow resolverTwoCandidates read365TwoMatches tyErr {}
        ⟨"중앙초등학교", "어떤책", "저자", "출판"⟩).1.cache.getSearch
        "중앙초등학교" "9788901111111" =
      some ⟨false, 0, none, some ("Read365 검색 오류: " ++ tyErr)⟩ := by
  refine ⟨rfl, rfl, ?_⟩
  rfl

/-- Closed instance of C4: a one-record batch with a failure-free run. -/
theorem claim4_job_invariants_witness :
    List.Chain' (fun a b => statusRank a.status ≤ statusRank b.status)
      (jobTrace resolverTwoCandidates (fun _ => (0, [])) "TypeError" "job1"
        [⟨"서울초등학교", "어떤책", "저자", "출판"⟩] "경기" "초등학교" none) ∧
    (initialJob "job1" [⟨"서울초등학교", "어떤책", "저자", "출판"⟩] "경기" "초등학교").progress ≤
      (initialJob "job1" [⟨"서울초등학교", "어떤책", "저자", "출판"⟩] "경기" "초등학교").total :=
  ⟨(claim4_job_invariants resolverTwoCandidates (fun _ => (0, [])) "TypeError" "job1"
      "경기" "초등학교" [⟨"서울초등학교", "어떤책", "저자", "출판"⟩] none).2,
   ((claim4_job_invariants resolverTwoCandidates (fun _ => (0, [])) "TypeError" "job1"
      "경기" "초등학교" [⟨"서울초등학교", "어떤책", "저자", "출판"⟩] none).1 _
      (by simp [jobTrace])).1⟩

/--
C9: for a batch of three records in which only the second record's resolver
call throws a transport error (and the catalog holds nothing anywhere), the
job completes with `progress = 3`; the second outcome's reason is the
resolver-error marker `알라딘 오류: <err>`, that error is cached under the
second record's (title, author) key, the resolver was called exactly once
per record, and the first and third outcomes are produced by the normal
path (resolved ISBN, `주요 지역에 등록된 도서 없음` reason).
-/
theorem claim9_transport_error_isolated
    (aladinO : String → String → Except String AladinResolution)
    (read365O : String → Nat × List Read365Book) (tyErr errMsg : String)
    (h1 : aladinO "책A" "저자A" = .ok ⟨some "9788911111111", none, 1⟩)
    (h2 : aladinO "책B" "저자B" = .error errMsg)
    (h3 : aladinO "책C" "저자C" = .ok ⟨some "9788933333333", none, 1⟩)
    (hr1 : read365O "9788911111111" = (0, []))
    (hr3 : read365O "9788933333333" = (0, [])) :
    (runVerification aladinO read365O tyErr {}
        (initialJob "job9" claim9Rows "경기" "초등학교") claim9Rows).2.status = .completed ∧
    (runVerification aladinO read365O tyErr {}
        (initialJob "job9" claim9Rows "경기" "초등학교") claim9Rows).2.progress = 3 ∧
    (runVerification aladinO read365O tyErr {}
        (initialJob "job9" claim9Rows "경기" "초등학교") claim9Rows).2.results.map
        ResultRow.reason =
      ["주요 지역에 등록된 도서 없음", "알라딘 오류: " ++ errMsg,
       "주요 지역에 등록된 도서 없음"] ∧
    (runVerification aladinO read365O tyErr {}
        (initialJob "job9" claim9Rows "경기" "초등학교") claim9Rows).2.results.map
        ResultRow.isbn13 =
      ["9788911111111", "", "9788933333333"] ∧
    (runVerification aladinO read365O tyErr {}
        (initialJob "job9" claim9Rows "경기" "초등학교") claim9Rows).1.aladinCalls =
      [("책A", "저자A"), ("책B", "저자B"), ("책C", "저자C")] ∧
    (runVerification aladinO read365O tyErr {}
        (initialJob "job9" claim9Rows "경기" "초등학교") claim9Rows).1.cache.getISBN
        "책B" "저자B" =
      some ⟨none, some ("알라딘 오류: " ++ errMsg)⟩ := by
  simp [runVerification, stepJob, processRow, resolveISBNStep, completeJob, initialJob,
    claim9Rows, Cache.getISBN, Cache.setISBN, Cache.getSearch, Cache.setSearch,
    setAssoc, List.lookup, makeISBNKey, makeSearchKey, normalizeKey, stripWs, lowerStr,
    truthyS, findSchoolBooks, h1, h2, h3, hr1, hr3]

/-- Closed instance of C9 at concrete oracles (the middle title throws
`fetch failed`). -/
theorem claim9_transport_error_isolated_witness :
    (runVerification aladinC9 read365Empty "TypeError" {}
        (initialJob "job9" claim9Rows "경기" "초등학교") claim9Rows).2.status = .completed ∧
    (runVerification aladinC9 read365Empty "TypeError" {}
        (initialJob "job9" claim9Rows "경기" "초등학교") claim9Rows).2.progress = 3 ∧
    (runVerification aladinC9 read365Empty "TypeError" {}
        (initialJob "job9" claim9Rows "경기" "초등학교") claim9Rows).2.results.map
        ResultRow.reason =
      ["주요 지역에 등록된 도서 없음", "알라딘 오류: " ++ "fetch failed",
       "주요 지역에 등록된 도서 없음"] ∧
    (runVerification aladinC9 read365Empty "TypeError" {}
        (initialJob "job9" claim9Rows "경기" "초등학교") claim9Rows).2.results.map
        ResultRow.isbn13 =
      ["9788911111111", "", "9788933333333"] ∧
    (runVerification aladinC9 read365Empty "TypeError" {}
        (initialJob "job9" claim9Rows "경기" "초등학교") claim9Rows).1.aladinCalls =
      [("책A", "저자A"), ("책B", "저자B"), ("책C", "저자C")] ∧
    (runVerification aladinC9 read365Empty "TypeError" {}
        (initialJob "job9" claim9Rows "경기" "초등학교") claim9Rows).1.cache.getISBN
        "책B" "저자B" =
      some ⟨none, some ("알라딘 오류: " ++ "fetch failed")⟩ :=
  claim9_transport_error_isolated aladinC9 read365Empty "TypeError" "fetch failed"
    rfl rfl rfl rfl rfl

end BookProject
